import Mathlib

/-!
# The cgo shim of `vk` (`vk/vk.c`, `vk/vk.h`, `vk/example/glfw/main.c`)

A shallow embedding of the C shim that sits between the Go package and the
Vulkan / GLFW libraries, and the properties its description states.

The shim has no data of its own besides two initialised globals; everything it
does is a call into code that lives elsewhere (the Vulkan loader, the extension
entry points the loader hands out, the callbacks exported from Go, `fprintf`).
Those are the parameters of the embedding (`Env`); every call the shim makes is
recorded, in order, in a trace, so that "calls `f` exactly once with these
arguments" is a statement about the trace.

Conventions
* pointers and handles are natural numbers, `NULL` is `0`;
* `pCallbackData` is an `Option`: `none` is the null pointer, and reading
  through it is undefined behaviour, modelled by the result `none`;
* a `const char*` that is handed to `%s` is modelled by the string it points to;
* floating constants are the exact rationals they denote.
-/

set_option linter.unusedVariables false

namespace vk

/-! ## Vulkan header constants -/

/-- Modelled from the spec: `VkResult` of the Vulkan headers (not part of the
sources), a signed 32-bit enumeration. -/
abbrev VkResult := Int

/-- Modelled from the spec: `VkBool32` of the Vulkan headers, an unsigned
32-bit integer. -/
abbrev VkBool32 := Nat

/-- Modelled from the spec: `VK_FALSE` of the Vulkan headers, the value `0`. -/
def VK_FALSE : VkBool32 := 0

/-- Modelled from the spec: `VK_ERROR_EXTENSION_NOT_PRESENT` of the Vulkan
headers, whose value there is `-7`. -/
def VK_ERROR_EXTENSION_NOT_PRESENT : VkResult := -7

/-- Modelled from the spec: `VK_DEBUG_UTILS_MESSAGE_SEVERITY_WARNING_BIT_EXT`
of the Vulkan headers, the value `0x100`. -/
def VK_DEBUG_UTILS_MESSAGE_SEVERITY_WARNING_BIT_EXT : Int := 0x100

/-- The null pointer. -/
def NULL : Nat := 0

/-- Modelled from the spec: `VkDebugUtilsMessengerCallbackDataEXT` of the
Vulkan headers. Only `pMessage` is read by the shim; the other fields are kept
so that "depends only on the message" has something to range over. -/
structure VkDebugUtilsMessengerCallbackDataEXT where
  flags : Nat
  pMessageIdName : String
  messageIdNumber : Int
  pMessage : String
  queueLabelCount : Nat
  cmdBufLabelCount : Nat
  objectCount : Nat
deriving DecidableEq, Repr

/-! ## The world outside the shim -/

/-- Everything a caller can observe: the text written to `stderr` so far, and
the memory cells (address, value) that were written, most recent first. -/
structure World where
  stderr : String
  mem : List (Nat × Nat)
deriving DecidableEq, Repr

/-- The value stored at address `p`, if any. -/
def World.load (w : World) (p : Nat) : Option Nat :=
  (w.mem.find? (fun c => c.1 == p)).map Prod.snd

/-- Write `v` at address `p`. -/
def World.store (w : World) (p v : Nat) : World :=
  { w with mem := (p, v) :: w.mem }

/-- One call made by the shim into code outside it. -/
inductive Event where
  | getInstanceProcAddr (inst : Nat) (pName : String)
  | createMessenger (func inst pCreateInfo pAllocator pDebugMessenger : Nat)
  | destroyMessenger (func inst debugMessenger pAllocator : Nat)
  | errorCallback (error : Int) (description : Nat)
  | resizeCallback (window : Nat) (width height : Int)
deriving DecidableEq, Repr

/-- Is the event a call through a function pointer obtained from the loader? -/
def Event.isExtensionCall : Event → Bool
  | .createMessenger .. => true
  | .destroyMessenger .. => true
  | _ => false

/-- The world together with the calls made so far, oldest first. -/
structure State where
  world : World
  trace : List Event
deriving DecidableEq, Repr

/-- Record a call. -/
def State.emit (s : State) (e : Event) : State :=
  { s with trace := s.trace ++ [e] }

/-- The calls made between `s` and a later state `t`. -/
def State.callsSince (s t : State) : List Event :=
  t.trace.drop s.trace.length

/-- The code the shim calls into.
* `vkGetInstanceProcAddr w inst name`: the address the loader returns, `NULL`
  when the instance does not provide `name`; a query, it changes nothing;
* `invokeCreate f`, `invokeDestroy f`: what the code at address `f` does when
  called with the signature of `PFN_vkCreateDebugUtilsMessengerEXT`,
  `PFN_vkDestroyDebugUtilsMessengerEXT`;
* `errorCallback`, `resizeCallback`: the functions exported from Go
  (`_cgo_export.h`). -/
structure Env where
  vkGetInstanceProcAddr : World → Nat → String → Nat
  invokeCreate : Nat → Nat → Nat → Nat → Nat → World → VkResult × World
  invokeDestroy : Nat → Nat → Nat → Nat → World → World
  errorCallback : Int → Nat → World → World
  resizeCallback : Nat → Int → Int → World → World

/-! ## `fprintf` -/

/-- Expansion of a format string: `%s` takes the next argument, every other
character is copied. -/
def format : List Char → List String → List Char
  | [], _ => []
  | '%' :: 's' :: rest, arg :: args => arg.data ++ format rest args
  | c :: rest, args => c :: format rest args

/-- The stream after `fprintf (stream, fmt, args...)`. -/
def fprintf (stream : String) (fmt : String) (args : List String) : String :=
  stream ++ String.mk (format fmt.data args)

/-! ## `vk/vk.c` -/

/-- Source: `void errorCallback_cgo(int error, char* description)`. -/
def errorCallback_cgo (env : Env) (error : Int) (description : Nat) (s : State) : State :=
  { world := env.errorCallback error description s.world
    trace := s.trace ++ [Event.errorCallback error description] }

/-- Source: `void resizeCallback_cgo(GLFWwindow* window, int width, int height)`. -/
def resizeCallback_cgo (env : Env) (window : Nat) (width height : Int) (s : State) : State :=
  { world := env.resizeCallback window width height s.world
    trace := s.trace ++ [Event.resizeCallback window width height] }

/-- Source: `VkBool32 debug_callback(messageSeverity, messageTypes, pCallbackData, pUserData)`:
the vulkan layer debug messenger callback. -/
def debug_callback (messageSeverity : Int) (messageTypes : Nat)
    (pCallbackData : Option VkDebugUtilsMessengerCallbackDataEXT) (pUserData : Nat)
    (w : World) : Option (VkBool32 × World) :=
  if messageSeverity ≥ VK_DEBUG_UTILS_MESSAGE_SEVERITY_WARNING_BIT_EXT then
    match pCallbackData with
    | none => none
    | some d =>
      some (VK_FALSE, { w with stderr := fprintf w.stderr "validation layer: %s\n" [d.pMessage] })
  else
    some (VK_FALSE, w)

/-- Source: `VkResult CreateDebugUtilsMessengerEXT(instance, pCreateInfo, pAllocator, pDebugMessenger)`. -/
def CreateDebugUtilsMessengerEXT (env : Env) (inst pCreateInfo pAllocator pDebugMessenger : Nat)
    (s : State) : VkResult × State :=
  let func := env.vkGetInstanceProcAddr s.world inst "vkCreateDebugUtilsMessengerEXT"
  let s1 := s.emit (Event.getInstanceProcAddr inst "vkCreateDebugUtilsMessengerEXT")
  if func != NULL then
    let r := env.invokeCreate func inst pCreateInfo pAllocator pDebugMessenger s1.world
    (r.1, { world := r.2
            trace := s1.trace ++ [Event.createMessenger func inst pCreateInfo pAllocator pDebugMessenger] })
  else
    (VK_ERROR_EXTENSION_NOT_PRESENT, s1)

/-- Source: `void DestroyDebugUtilsMessengerEXT(instance, debugMessenger, pAllocator)`. -/
def DestroyDebugUtilsMessengerEXT (env : Env) (inst debugMessenger pAllocator : Nat)
    (s : State) : State :=
  let func := env.vkGetInstanceProcAddr s.world inst "vkDestroyDebugUtilsMessengerEXT"
  let s1 := s.emit (Event.getInstanceProcAddr inst "vkDestroyDebugUtilsMessengerEXT")
  if func != NULL then
    { world := env.invokeDestroy func inst debugMessenger pAllocator s1.world
      trace := s1.trace ++ [Event.destroyMessenger func inst debugMessenger pAllocator] }
  else
    s1

/-! ## Initialised globals

C objects and the part of C initialisation the two globals need: a
brace-enclosed list of constants initialises a scalar with its first constant,
an array and a structure member by member, and a union through its first
member; a member that is itself an aggregate or a union takes as many constants
from the list as it needs (brace elision), and what the list does not reach is
zero. -/

/-- The C types that occur in the two globals. -/
inductive CType where
  | float
  | int32
  | uint32
  | array (n : Nat) (elem : CType)
  | struct (members : List (String × CType))
  | union (members : List (String × CType))

/-- A C object: a value of one of the types above, or the address of a named
object. A union holds the member it was written through. -/
inductive CObj where
  | float (q : ℚ)
  | int (i : Int)
  | pointer (target : String)
  | array (elems : List CObj)
  | struct (members : List (String × CObj))
  | union (member : String) (val : CObj)

/-- A rational is a binary32 value: `m * 2 ^ e` with a 24-bit significand and an
exponent in range. Converting such a constant to `float` is exact. -/
def isBinary32 (q : ℚ) : Prop :=
  ∃ m e : Int, m.natAbs < 2 ^ 24 ∧ -149 ≤ e ∧ e ≤ 104 ∧ q = m * (2 : ℚ) ^ e

/-- Initialise `n` consecutive elements with `f`, threading the constants left. -/
def initArray (f : List ℚ → CObj × List ℚ) : Nat → List ℚ → List CObj × List ℚ
  | 0, xs => ([], xs)
  | n + 1, xs =>
    let head := f xs
    let tail := initArray f n head.2
    (head.1 :: tail.1, tail.2)

mutual
/-- The object of type `t` that a list of constants initialises, and the
constants it leaves. -/
def CType.init : CType → List ℚ → CObj × List ℚ
  | .float, xs => (.float (xs.headD 0), xs.tail)
  | .int32, xs => (.int ((xs.headD 0).num.tdiv (xs.headD 0).den), xs.tail)
  | .uint32, xs => (.int ((xs.headD 0).num.tdiv (xs.headD 0).den), xs.tail)
  | .array n elem, xs =>
    let r := initArray (CType.init elem) n xs
    (.array r.1, r.2)
  | .struct ms, xs =>
    let r := initMembers ms xs
    (.struct r.1, r.2)
  | .union [], xs => (.struct [], xs)
  | .union ((name, t) :: _), xs =>
    let r := CType.init t xs
    (.union name r.1, r.2)
/-- The members of a structure, in order. -/
def initMembers : List (String × CType) → List ℚ → List (String × CObj) × List ℚ
  | [], xs => ([], xs)
  | (name, t) :: ms, xs =>
    let head := CType.init t xs
    let tail := initMembers ms head.2
    ((name, head.1) :: tail.1, tail.2)
end

/-- The member `name` of a structure, or of a union that holds that member. -/
def CObj.member : CObj → String → Option CObj
  | .struct ms, name => (ms.find? (fun m => m.1 == name)).map Prod.snd
  | .union held val, name => if held == name then some val else none
  | _, _ => none

/-- The element `i` of an array. -/
def CObj.index : CObj → Nat → Option CObj
  | .array elems, i => elems[i]?
  | _, _ => none

/-- The object a pointer points to, among the named objects `globals`. -/
def CObj.deref (globals : List (String × CObj)) : CObj → Option CObj
  | .pointer target => (globals.find? (fun g => g.1 == target)).map Prod.snd
  | _ => none

/-- Modelled from the spec: `VkClearColorValue` of the Vulkan headers,
`union { float float32[4]; int32_t int32[4]; uint32_t uint32[4]; }`. -/
def VkClearColorValue : CType :=
  .union [("float32", .array 4 .float), ("int32", .array 4 .int32), ("uint32", .array 4 .uint32)]

/-- Modelled from the spec: `VkClearDepthStencilValue` of the Vulkan headers,
`struct { float depth; uint32_t stencil; }`. -/
def VkClearDepthStencilValue : CType :=
  .struct [("depth", .float), ("stencil", .uint32)]

/-- Modelled from the spec: `VkClearValue` of the Vulkan headers,
`union { VkClearColorValue color; VkClearDepthStencilValue depthStencil; }`. -/
def VkClearValue : CType :=
  .union [("color", VkClearColorValue), ("depthStencil", VkClearDepthStencilValue)]

/-- Source: `float _priority = 1.0f;` -/
def _priority : CObj := (CType.float.init [1.0]).1

/-- Source: `float* priority = &_priority;` -/
def priority : CObj := .pointer "_priority"

/-- Source: `VkClearValue _defaultClearColor = {0.0, 0.0, 0.0, 1.0};` -/
def _defaultClearColor : CObj := (VkClearValue.init [0.0, 0.0, 0.0, 1.0]).1

/-- Source: `VkClearValue* defaultClearColor = &_defaultClearColor;` -/
def defaultClearColor : CObj := .pointer "_defaultClearColor"

/-- The named objects of `vk.c`. -/
def globals : List (String × CObj) :=
  [("_priority", _priority), ("priority", priority),
   ("_defaultClearColor", _defaultClearColor), ("defaultClearColor", defaultClearColor)]

end vk

/-! ## `vk/example/glfw/main.c` -/

namespace glfw_main

open vk

/-- Source: `float _priority = 1.0f;` -/
def _priority : CObj := (CType.float.init [1.0]).1

/-- Source: `float* priority = &_priority;` -/
def priority : CObj := .pointer "_priority"

/-- The named objects of `main.c`. -/
def globals : List (String × CObj) :=
  [("_priority", _priority), ("priority", priority)]

/-- Source: `void errorCallback_cgo(int error, char* description)`. -/
def errorCallback_cgo (env : Env) (error : Int) (description : Nat) (s : State) : State :=
  { world := env.errorCallback error description s.world
    trace := s.trace ++ [Event.errorCallback error description] }

/-- Source: `void resizeCallback_cgo(GLFWwindow* window, int width, int height)`. -/
def resizeCallback_cgo (env : Env) (window : Nat) (width height : Int) (s : State) : State :=
  { world := env.resizeCallback window width height s.world
    trace := s.trace ++ [Event.resizeCallback window width height] }

end glfw_main

/-! ## Two concrete environments -/

namespace vk

/-- An instance without `VK_EXT_debug_utils`: every lookup yields `NULL`. -/
def envWithoutExtension : Env where
  vkGetInstanceProcAddr := fun _ _ _ => NULL
  invokeCreate := fun _ _ _ _ _ w => (0, w)
  invokeDestroy := fun _ _ _ _ w => w
  errorCallback := fun _ _ w => w
  resizeCallback := fun _ _ _ w => w

/-- An instance with `VK_EXT_debug_utils`: the create entry point lives at
`0x1000`, writes the handle `77` through `pDebugMessenger` and returns `5`
(`VK_INCOMPLETE`, a value the shim has no name for); the destroy entry point
lives at `0x2000` and clears the cells that hold the handle. The Go callbacks
log to `stderr` and record the window size at the window's address. -/
def envWithExtension : Env where
  vkGetInstanceProcAddr := fun _ _ name =>
    if name == "vkCreateDebugUtilsMessengerEXT" then 0x1000
    else if name == "vkDestroyDebugUtilsMessengerEXT" then 0x2000
    else NULL
  invokeCreate := fun f _ _ _ pDebugMessenger w =>
    if f == 0x1000 then (5, w.store pDebugMessenger 77) else (-3, w)
  invokeDestroy := fun f _ debugMessenger _ w =>
    if f == 0x2000 then { w with mem := w.mem.filter (fun c => c.2 != debugMessenger) } else w
  errorCallback := fun error _ w =>
    { w with stderr := w.stderr ++ (if error == 0 then "ok\n" else "error\n") }
  resizeCallback := fun window width height w =>
    w.store window (width.toNat * 100000 + height.toNat)

/-- A caller whose messenger handle, at address `4`, holds `99`. -/
def callerState : State :=
  { world := { stderr := "", mem := [(4, 99)] }, trace := [] }

/-! ## Auxiliary facts -/

theorem fprintf_validation_layer (stream m : String) :
    fprintf stream "validation layer: %s\n" [m] = stream ++ "validation layer: " ++ m ++ "\n" := by
  apply String.ext
  simp [fprintf, format, String.data_append]

theorem append_validation_layer_ne (stream m : String) :
    stream ≠ stream ++ "validation layer: " ++ m ++ "\n" := by
  intro h
  have hl := congrArg String.length h
  simp only [String.length_append] at hl
  have h1 : "\n".length = 1 := by decide
  omega

theorem debug_callback_below (messageSeverity : Int) (messageTypes : Nat)
    (pCallbackData : Option VkDebugUtilsMessengerCallbackDataEXT) (pUserData : Nat) (w : World)
    (h : messageSeverity < 0x100) :
    debug_callback messageSeverity messageTypes pCallbackData pUserData w = some (VK_FALSE, w) := by
  have h' : ¬ (messageSeverity ≥ VK_DEBUG_UTILS_MESSAGE_SEVERITY_WARNING_BIT_EXT) := by
    simp only [VK_DEBUG_UTILS_MESSAGE_SEVERITY_WARNING_BIT_EXT]; omega
  simp [debug_callback, h']

theorem debug_callback_at_or_above (messageSeverity : Int) (messageTypes : Nat)
    (d : VkDebugUtilsMessengerCallbackDataEXT) (pUserData : Nat) (w : World)
    (h : 0x100 ≤ messageSeverity) :
    debug_callback messageSeverity messageTypes (some d) pUserData w =
      some (VK_FALSE, { w with stderr := w.stderr ++ "validation layer: " ++ d.pMessage ++ "\n" }) := by
  have h' : messageSeverity ≥ VK_DEBUG_UTILS_MESSAGE_SEVERITY_WARNING_BIT_EXT := by
    simp only [VK_DEBUG_UTILS_MESSAGE_SEVERITY_WARNING_BIT_EXT]; omega
  simp [debug_callback, h', fprintf_validation_layer]

theorem debug_callback_null_at_or_above (messageSeverity : Int) (messageTypes : Nat)
    (pUserData : Nat) (w : World) (h : 0x100 ≤ messageSeverity) :
    debug_callback messageSeverity messageTypes none pUserData w = none := by
  have h' : messageSeverity ≥ VK_DEBUG_UTILS_MESSAGE_SEVERITY_WARNING_BIT_EXT := by
    simp only [VK_DEBUG_UTILS_MESSAGE_SEVERITY_WARNING_BIT_EXT]; omega
  simp [debug_callback, h']

theorem isBinary32_zero : isBinary32 0 := ⟨0, 0, by norm_num, by norm_num, by norm_num, by norm_num⟩

theorem isBinary32_one : isBinary32 1 := ⟨1, 0, by norm_num, by norm_num, by norm_num, by norm_num⟩

end vk

/-! ## The properties -/

namespace vk

/-- C1: when the loader returns `NULL` for "vkCreateDebugUtilsMessengerEXT" on
the given instance, `CreateDebugUtilsMessengerEXT` returns
`VK_ERROR_EXTENSION_NOT_PRESENT`, whatever the instance and the three other
arguments are. -/
theorem CreateDebugUtilsMessengerEXT_null_lookup_result (env : Env)
    (inst pCreateInfo pAllocator pDebugMessenger : Nat) (s : State)
    (h : env.vkGetInstanceProcAddr s.world inst "vkCreateDebugUtilsMessengerEXT" = NULL) :
    (CreateDebugUtilsMessengerEXT env inst pCreateInfo pAllocator pDebugMessenger s).1
      = VK_ERROR_EXTENSION_NOT_PRESENT := by
  simp [CreateDebugUtilsMessengerEXT, h]

/-- C1 at an instance without the extension: the result is `-7`. -/
theorem CreateDebugUtilsMessengerEXT_null_lookup_result_witness :
    envWithoutExtension.vkGetInstanceProcAddr callerState.world 1
        "vkCreateDebugUtilsMessengerEXT" = NULL ∧
      (CreateDebugUtilsMessengerEXT envWithoutExtension 1 2 3 4 callerState).1 = -7 :=
  ⟨rfl, CreateDebugUtilsMessengerEXT_null_lookup_result envWithoutExtension 1 2 3 4 callerState rfl⟩

/-- C2: when the loader returns a non-null `f` for
"vkCreateDebugUtilsMessengerEXT", `CreateDebugUtilsMessengerEXT` returns what
`f (instance, pCreateInfo, pAllocator, pDebugMessenger)` returns and leaves the
world as `f` left it; after the lookup it makes exactly one call, that call of
`f` with the four arguments in the order received. -/
theorem CreateDebugUtilsMessengerEXT_forwards (env : Env)
    (inst pCreateInfo pAllocator pDebugMessenger : Nat) (s : State) (f : Nat)
    (hf : env.vkGetInstanceProcAddr s.world inst "vkCreateDebugUtilsMessengerEXT" = f)
    (hne : f ≠ NULL) :
    (CreateDebugUtilsMessengerEXT env inst pCreateInfo pAllocator pDebugMessenger s).1
        = (env.invokeCreate f inst pCreateInfo pAllocator pDebugMessenger s.world).1 ∧
      (CreateDebugUtilsMessengerEXT env inst pCreateInfo pAllocator pDebugMessenger s).2.world
        = (env.invokeCreate f inst pCreateInfo pAllocator pDebugMessenger s.world).2 ∧
      s.callsSince (CreateDebugUtilsMessengerEXT env inst pCreateInfo pAllocator pDebugMessenger s).2
        = [Event.getInstanceProcAddr inst "vkCreateDebugUtilsMessengerEXT",
           Event.createMessenger f inst pCreateInfo pAllocator pDebugMessenger] ∧
      (s.callsSince
          (CreateDebugUtilsMessengerEXT env inst pCreateInfo pAllocator pDebugMessenger s).2).filter
          Event.isExtensionCall
        = [Event.createMessenger f inst pCreateInfo pAllocator pDebugMessenger] := by
  subst hf
  simp [CreateDebugUtilsMessengerEXT, State.emit, State.callsSince, hne, Event.isExtensionCall]

/-- C2 at an instance with the extension: the entry point at `0x1000` is called
once with `(1, 2, 3, 4)`, its result `5` is returned and the handle it wrote is
in the caller's cell. -/
theorem CreateDebugUtilsMessengerEXT_forwards_witness :
    (CreateDebugUtilsMessengerEXT envWithExtension 1 2 3 4 callerState).1 = 5 ∧
      (CreateDebugUtilsMessengerEXT envWithExtension 1 2 3 4 callerState).2.world.load 4 = some 77 ∧
      callerState.callsSince (CreateDebugUtilsMessengerEXT envWithExtension 1 2 3 4 callerState).2
        = [Event.getInstanceProcAddr 1 "vkCreateDebugUtilsMessengerEXT",
           Event.createMessenger 0x1000 1 2 3 4] := by
  have h := CreateDebugUtilsMessengerEXT_forwards envWithExtension 1 2 3 4 callerState 0x1000
    (by decide) (by decide)
  refine ⟨h.1, ?_, h.2.2.1⟩
  rw [h.2.1]
  decide

/-- C3: `DestroyDebugUtilsMessengerEXT` first looks up
"vkDestroyDebugUtilsMessengerEXT" on the given instance. When the result `f` is
not null it then makes exactly one more call, `f (instance, debugMessenger,
pAllocator)`, and the world is as `f` left it; when it is null the lookup is the
only call and the world is unchanged. -/
theorem DestroyDebugUtilsMessengerEXT_forwards_or_skips (env : Env)
    (inst debugMessenger pAllocator : Nat) (s : State) (f : Nat)
    (hf : env.vkGetInstanceProcAddr s.world inst "vkDestroyDebugUtilsMessengerEXT" = f) :
    (f ≠ NULL →
        (DestroyDebugUtilsMessengerEXT env inst debugMessenger pAllocator s).world
          = env.invokeDestroy f inst debugMessenger pAllocator s.world ∧
        s.callsSince (DestroyDebugUtilsMessengerEXT env inst debugMessenger pAllocator s)
          = [Event.getInstanceProcAddr inst "vkDestroyDebugUtilsMessengerEXT",
             Event.destroyMessenger f inst debugMessenger pAllocator]) ∧
      (f = NULL →
        (DestroyDebugUtilsMessengerEXT env inst debugMessenger pAllocator s).world = s.world ∧
        s.callsSince (DestroyDebugUtilsMessengerEXT env inst debugMessenger pAllocator s)
          = [Event.getInstanceProcAddr inst "vkDestroyDebugUtilsMessengerEXT"]) ∧
      (DestroyDebugUtilsMessengerEXT env inst debugMessenger pAllocator s).trace
        = s.trace ++ s.callsSince (DestroyDebugUtilsMessengerEXT env inst debugMessenger pAllocator s) := by
  subst hf
  by_cases hne :
      env.vkGetInstanceProcAddr s.world inst "vkDestroyDebugUtilsMessengerEXT" = NULL
  · simp [DestroyDebugUtilsMessengerEXT, State.emit, State.callsSince, hne]
  · simp [DestroyDebugUtilsMessengerEXT, State.emit, State.callsSince, hne]

/-- C3 at an instance with the extension: the entry point at `0x2000` is called
once with `(1, 99, 3)` and the handle is gone from the caller's cell; at an
instance without it nothing is called and the cell keeps the handle. -/
theorem DestroyDebugUtilsMessengerEXT_forwards_or_skips_witness :
    ((DestroyDebugUtilsMessengerEXT envWithExtension 1 99 3 callerState).world.load 4 = none ∧
      callerState.callsSince (DestroyDebugUtilsMessengerEXT envWithExtension 1 99 3 callerState)
        = [Event.getInstanceProcAddr 1 "vkDestroyDebugUtilsMessengerEXT",
           Event.destroyMessenger 0x2000 1 99 3]) ∧
    ((DestroyDebugUtilsMessengerEXT envWithoutExtension 1 99 3 callerState).world.load 4 = some 99 ∧
      callerState.callsSince (DestroyDebugUtilsMessengerEXT envWithoutExtension 1 99 3 callerState)
        = [Event.getInstanceProcAddr 1 "vkDestroyDebugUtilsMessengerEXT"]) := by
  have h := (DestroyDebugUtilsMessengerEXT_forwards_or_skips envWithExtension 1 99 3 callerState
    0x2000 (by decide)).1 (by decide)
  have h0 := (DestroyDebugUtilsMessengerEXT_forwards_or_skips envWithoutExtension 1 99 3
    callerState NULL rfl).2.1 rfl
  refine ⟨⟨?_, h.2⟩, ⟨?_, h0.2⟩⟩
  · rw [h.1]
    decide
  · rw [h0.1]
    decide

/-- C4: for every severity and every callback data `d`, `debug_callback`
returns normally, and the text "validation layer: " followed by the message of
`d` and a newline is appended to `stderr` if and only if the severity is at
least `0x100`; below `0x100` nothing is written and the world is unchanged; in
either case nothing but `stderr` changes. -/
theorem debug_callback_prints_iff_warning (messageSeverity : Int) (messageTypes : Nat)
    (d : VkDebugUtilsMessengerCallbackDataEXT) (pUserData : Nat) (w : World) :
    ∃ r : VkBool32 × World,
      debug_callback messageSeverity messageTypes (some d) pUserData w = some r ∧
      (r.2.stderr = w.stderr ++ "validation layer: " ++ d.pMessage ++ "\n"
        ↔ 0x100 ≤ messageSeverity) ∧
      (messageSeverity < 0x100 → r.2 = w) ∧
      r.2.mem = w.mem := by
  by_cases h : 0x100 ≤ messageSeverity
  · refine ⟨_, debug_callback_at_or_above messageSeverity messageTypes d pUserData w h, ?_, ?_, rfl⟩
    · simp [h]
    · intro hlt
      omega
  · have hlt : messageSeverity < 0x100 := by omega
    refine ⟨_, debug_callback_below messageSeverity messageTypes (some d) pUserData w hlt, ?_, ?_, rfl⟩
    · constructor
      · intro heq
        exact absurd heq (append_validation_layer_ne w.stderr d.pMessage)
      · intro hge
        exact absurd hge h
    · intro _
      rfl

/-- C5: `errorCallback_cgo` makes one call, `errorCallback (error, description)`,
and `resizeCallback_cgo` makes one call, `resizeCallback (window, width, height)`
with width and height in that order; the state after either is the state that
call leaves and nothing else is called. This holds for the trampolines of `vk.c` and for
those of `example/glfw/main.c`. -/
theorem callback_trampolines_forward (env : Env) (error : Int) (description : Nat)
    (window : Nat) (width height : Int) (s : State) :
    ((errorCallback_cgo env error description s).world
        = env.errorCallback error description s.world ∧
      s.callsSince (errorCallback_cgo env error description s)
        = [Event.errorCallback error description] ∧
      (resizeCallback_cgo env window width height s).world
        = env.resizeCallback window width height s.world ∧
      s.callsSince (resizeCallback_cgo env window width height s)
        = [Event.resizeCallback window width height]) ∧
    ((glfw_main.errorCallback_cgo env error description s).world
        = env.errorCallback error description s.world ∧
      s.callsSince (glfw_main.errorCallback_cgo env error description s)
        = [Event.errorCallback error description] ∧
      (glfw_main.resizeCallback_cgo env window width height s).world
        = env.resizeCallback window width height s.world ∧
      s.callsSince (glfw_main.resizeCallback_cgo env window width height s)
        = [Event.resizeCallback window width height]) := by
  simp [errorCallback_cgo, resizeCallback_cgo, glfw_main.errorCallback_cgo,
    glfw_main.resizeCallback_cgo, State.callsSince]

/-- C5 on a concrete resize: width `640` and height `480` reach the Go callback
unswapped, which here records `640 * 100000 + 480` at the window's address. -/
theorem callback_trampolines_forward_witness :
    (resizeCallback_cgo envWithExtension 8 640 480 callerState).world.load 8 = some 64000480 ∧
      (glfw_main.resizeCallback_cgo envWithExtension 8 640 480 callerState).world.load 8
        = some 64000480 ∧
      (errorCallback_cgo envWithExtension 3 0 callerState).world.stderr = "error\n" := by
  have h := callback_trampolines_forward envWithExtension 3 0 8 640 480 callerState
  refine ⟨?_, ?_, ?_⟩
  · rw [h.1.2.2.1]
    decide
  · rw [h.2.2.2.1]
    decide
  · rw [h.1.1]
    decide

/-- C6: the object `priority` points to is the float `1`, in `vk.c` and in
`example/glfw/main.c`; the object `defaultClearColor` points to holds its
`color` member, that one its `float32` member, whose four elements are the
floats `0, 0, 0, 1`; the initialiser list is used up; and `0` and `1` are
binary32 values, so no constant was rounded. -/
theorem globals_initial_values :
    priority.deref globals = some (CObj.float 1) ∧
      glfw_main.priority.deref glfw_main.globals = some (CObj.float 1) ∧
      (((defaultClearColor.deref globals).bind (fun o => o.member "color")).bind
          (fun o => o.member "float32"))
        = some (CObj.array [CObj.float 0, CObj.float 0, CObj.float 0, CObj.float 1]) ∧
      (VkClearValue.init [0.0, 0.0, 0.0, 1.0]).2 = [] ∧
      isBinary32 0 ∧ isBinary32 1 := by
  refine ⟨?_, ?_, ?_, ?_, isBinary32_zero, isBinary32_one⟩
  · simp [CObj.deref, priority, globals, _priority, CType.init]
    norm_num
  · simp [CObj.deref, glfw_main.priority, glfw_main.globals, glfw_main._priority, CType.init]
    norm_num
  · simp [CObj.deref, CObj.member, defaultClearColor, globals, _defaultClearColor, VkClearValue,
      VkClearColorValue, CType.init, initArray]
    norm_num
  · simp [VkClearValue, VkClearColorValue, CType.init, initArray]

/-- C7: for every severity, message types, callback data and user data
`debug_callback` returns, and the value it returns is `VK_FALSE`, which is `0`. -/
theorem debug_callback_returns_false (messageSeverity : Int) (messageTypes : Nat)
    (d : VkDebugUtilsMessengerCallbackDataEXT) (pUserData : Nat) (w : World) :
    (debug_callback messageSeverity messageTypes (some d) pUserData w).map Prod.fst
      = some VK_FALSE ∧ VK_FALSE = 0 := by
  refine ⟨?_, rfl⟩
  by_cases h : 0x100 ≤ messageSeverity
  · rw [debug_callback_at_or_above messageSeverity messageTypes d pUserData w h]
    rfl
  · rw [debug_callback_below messageSeverity messageTypes (some d) pUserData w (by omega)]
    rfl

/-- C8: when the loader returns `NULL` for "vkCreateDebugUtilsMessengerEXT",
`CreateDebugUtilsMessengerEXT` leaves the world as it found it, in particular
the cell `pDebugMessenger` points to, and the lookup is the only call it
makes: no call goes through a function pointer. -/
theorem CreateDebugUtilsMessengerEXT_null_lookup_frame (env : Env)
    (inst pCreateInfo pAllocator pDebugMessenger : Nat) (s : State)
    (h : env.vkGetInstanceProcAddr s.world inst "vkCreateDebugUtilsMessengerEXT" = NULL) :
    (CreateDebugUtilsMessengerEXT env inst pCreateInfo pAllocator pDebugMessenger s).2.world
        = s.world ∧
      (CreateDebugUtilsMessengerEXT env inst pCreateInfo pAllocator pDebugMessenger s).2.world.load
          pDebugMessenger = s.world.load pDebugMessenger ∧
      (CreateDebugUtilsMessengerEXT env inst pCreateInfo pAllocator pDebugMessenger s).2.trace
        = s.trace ++ [Event.getInstanceProcAddr inst "vkCreateDebugUtilsMessengerEXT"] ∧
      (s.callsSince
          (CreateDebugUtilsMessengerEXT env inst pCreateInfo pAllocator pDebugMessenger s).2).filter
          Event.isExtensionCall = [] := by
  simp [CreateDebugUtilsMessengerEXT, State.emit, State.callsSince, h, Event.isExtensionCall]

/-- C8 at an instance without the extension: the caller's handle `99` at
address `4` is still there and the only call is the lookup. -/
theorem CreateDebugUtilsMessengerEXT_null_lookup_frame_witness :
    (CreateDebugUtilsMessengerEXT envWithoutExtension 1 2 3 4 callerState).2.world.load 4
        = some 99 ∧
      (CreateDebugUtilsMessengerEXT envWithoutExtension 1 2 3 4 callerState).2.trace
        = [Event.getInstanceProcAddr 1 "vkCreateDebugUtilsMessengerEXT"] := by
  have h := CreateDebugUtilsMessengerEXT_null_lookup_frame envWithoutExtension 1 2 3 4
    callerState rfl
  refine ⟨?_, h.2.2.1⟩
  rw [h.2.1]
  decide

/-- C9: take two calls of `debug_callback` with the same severity and with
callback data that carry the same message (or are both null), from any two
worlds and with any message types, user data and other fields of the callback
data. Either both read through a null pointer, or both return the same value
and append the same text to `stderr`, changing nothing else; from one and the
same world the two calls are equal. Below `0x100` the result is `VK_FALSE` with
the world unchanged for any callback data pointer, null included. -/
theorem debug_callback_depends_on_severity_and_message (messageSeverity : Int)
    (messageTypes messageTypes2 : Nat)
    (pCallbackData pCallbackData2 : Option VkDebugUtilsMessengerCallbackDataEXT)
    (pUserData pUserData2 : Nat) (w w2 : World) :
    (pCallbackData.map (fun d => d.pMessage) = pCallbackData2.map (fun d => d.pMessage) →
        ((debug_callback messageSeverity messageTypes pCallbackData pUserData w = none ∧
            debug_callback messageSeverity messageTypes2 pCallbackData2 pUserData2 w2 = none) ∨
          ∃ (r : VkBool32) (out : String),
            debug_callback messageSeverity messageTypes pCallbackData pUserData w
              = some (r, { w with stderr := w.stderr ++ out }) ∧
            debug_callback messageSeverity messageTypes2 pCallbackData2 pUserData2 w2
              = some (r, { w2 with stderr := w2.stderr ++ out })) ∧
        debug_callback messageSeverity messageTypes pCallbackData pUserData w
          = debug_callback messageSeverity messageTypes2 pCallbackData2 pUserData2 w) ∧
      (messageSeverity < 0x100 →
        debug_callback messageSeverity messageTypes pCallbackData pUserData w
          = some (VK_FALSE, w)) := by
  refine ⟨?_, debug_callback_below messageSeverity messageTypes pCallbackData pUserData w⟩
  intro hm
  by_cases h : 0x100 ≤ messageSeverity
  · cases pCallbackData with
    | none =>
      cases pCallbackData2 with
      | none =>
        refine ⟨Or.inl ⟨debug_callback_null_at_or_above _ _ _ _ h,
          debug_callback_null_at_or_above _ _ _ _ h⟩, ?_⟩
        rw [debug_callback_null_at_or_above _ _ _ _ h, debug_callback_null_at_or_above _ _ _ _ h]
      | some d2 => simp at hm
    | some d1 =>
      cases pCallbackData2 with
      | none => simp at hm
      | some d2 =>
        have hm2 : d1.pMessage = d2.pMessage := by simpa using hm
        refine ⟨Or.inr ⟨VK_FALSE, "validation layer: " ++ d1.pMessage ++ "\n", ?_, ?_⟩, ?_⟩
        · rw [debug_callback_at_or_above _ _ _ _ _ h]
          simp [String.append_assoc]
        · rw [debug_callback_at_or_above _ _ _ _ _ h, hm2]
          simp [String.append_assoc]
        · rw [debug_callback_at_or_above _ _ _ _ _ h, debug_callback_at_or_above _ _ _ _ _ h, hm2]
  · have hlt : messageSeverity < 0x100 := by omega
    refine ⟨Or.inr ⟨VK_FALSE, "", ?_, ?_⟩, ?_⟩
    · rw [debug_callback_below _ _ _ _ _ hlt]
      simp
    · rw [debug_callback_below _ _ _ _ _ hlt]
      simp
    · rw [debug_callback_below _ _ _ _ _ hlt, debug_callback_below _ _ _ _ _ hlt]

/-- C9 on concrete calls: a warning with message "lost device" appends one and
the same line to an empty `stderr` and to a `stderr` that holds "abc", for two
callback data that differ in every other field, the second `stderr` ending up
as "abcvalidation layer: lost device" and a newline; and an informational
message with a null callback data prints nothing. -/
theorem debug_callback_depends_on_severity_and_message_witness :
    (∃ (r : VkBool32) (out : String),
      debug_callback 0x100 1
          (some { flags := 0, pMessageIdName := "a", messageIdNumber := 1,
                  pMessage := "lost device", queueLabelCount := 0, cmdBufLabelCount := 0,
                  objectCount := 0 }) 0 callerState.world
        = some (r, { callerState.world with stderr := callerState.world.stderr ++ out }) ∧
      debug_callback 0x100 4
          (some { flags := 9, pMessageIdName := "b", messageIdNumber := 2,
                  pMessage := "lost device", queueLabelCount := 3, cmdBufLabelCount := 5,
                  objectCount := 7 }) 64 { stderr := "abc", mem := [] }
        = some (r, { stderr := "abc" ++ out, mem := [] })) ∧
    debug_callback 0x100 4
        (some { flags := 9, pMessageIdName := "b", messageIdNumber := 2,
                pMessage := "lost device", queueLabelCount := 3, cmdBufLabelCount := 5,
                objectCount := 7 }) 64 { stderr := "abc", mem := [] }
      = some (0, { stderr := "abcvalidation layer: lost device\n", mem := [] }) ∧
    debug_callback 0x10 1 none 0 callerState.world = some (VK_FALSE, callerState.world) := by
  refine ⟨?_, by decide, (debug_callback_depends_on_severity_and_message 0x10 1 1 none none 0 0
    callerState.world callerState.world).2 (by decide)⟩
  rcases (debug_callback_depends_on_severity_and_message 0x100 1 4
    (some { flags := 0, pMessageIdName := "a", messageIdNumber := 1,
            pMessage := "lost device", queueLabelCount := 0, cmdBufLabelCount := 0,
            objectCount := 0 })
    (some { flags := 9, pMessageIdName := "b", messageIdNumber := 2,
            pMessage := "lost device", queueLabelCount := 3, cmdBufLabelCount := 5,
            objectCount := 7 })
    0 64 callerState.world { stderr := "abc", mem := [] }).1 rfl with ⟨hfault | hsame, _⟩
  · exact absurd hfault.1 (by decide)
  · exact hsame

end vk
